import Mathlib

/-!
Verification of the multimodal emotion-fusion engine.

The embedding models the Python modules `multimodal_fusion.py` and
`gemini_chat.py` shallowly in Lean:

- Python dicts become association lists (`Dict α`) preserving insertion
  order; all dicts the program builds have distinct keys, so first-match
  lookup coincides with Python dict lookup.
- Python numbers (floats and ints flowing into true division) become `ℚ`,
  so the arithmetic identities of the specification hold exactly.
- `round(x, 2)` becomes `round2`, round-half-to-even at two decimals,
  matching the banker rounding that Python applies to these exact rationals.
- String methods `.lower()`, `.strip()`, `.title()` become `pyLower`,
  `pyStrip`, `pyTitle` (ASCII behaviour; every label in this program is
  ASCII).
- `fuse_results` wraps its body in `try/except`; in this typed embedding
  the only representable failure of the primary path is a missing key in a
  caller-supplied weights dict (`weights["text"]` etc.), so the primary
  path returns `Option` and `fuse_results` falls back on `none`.
- The Python `set([a, b, c])` iterates in unspecified hash order; we fix
  first-occurrence order (`distinctEmotions`).  `max` over the score dict
  keeps the earliest maximum, which we mirror; no claim proved below
  depends on the tie order except through this documented choice.
- The Gemini client is an external collaborator; `process_message` takes
  it as a function argument `genai : String → String`.
-/

/-! ### Python dictionary model -/

abbrev Dict (α : Type) := List (String × α)

def dictGet {α : Type} : Dict α → String → Option α
  | [], _ => none
  | p :: rest, k => if p.1 = k then some p.2 else dictGet rest k

def sumValues (d : Dict ℚ) : ℚ := (d.map Prod.snd).sum

/-! ### Python string helpers (ASCII) -/

def pyLower (s : String) : String := String.mk (s.data.map Char.toLower)

def pyStrip (s : String) : String :=
  String.mk (((s.data.dropWhile Char.isWhitespace).reverse.dropWhile Char.isWhitespace).reverse)

def pyTitleGo : List Char → Bool → List Char
  | [], _ => []
  | c :: cs, prevAlpha =>
    (if prevAlpha then c.toLower else c.toUpper) :: pyTitleGo cs c.isAlpha

def pyTitle (s : String) : String := String.mk (pyTitleGo s.data false)

/-! ### Rounding: Python round(x, 2), half to even -/

def roundHalfEven (x : ℚ) : ℤ :=
  let n : ℤ := Int.floor x
  if x - n < 1/2 then n
  else if 1/2 < x - n then n + 1
  else if n % 2 = 0 then n else n + 1

def round2 (x : ℚ) : ℚ := (roundHalfEven (x * 100) : ℚ) / 100

/-! ### multimodal_fusion.py -/

def EMOTION_MAPPING : Dict String := [
  ("Angry", "angry"),
  ("angry", "angry"),
  ("Disgust", "disgust"),
  ("disgust", "disgust"),
  ("disgusted", "disgust"),
  ("Fear", "fear"),
  ("fear", "fear"),
  ("fearful", "fear"),
  ("Happy", "happy"),
  ("happy", "happy"),
  ("Neutral", "neutral"),
  ("neutral", "neutral"),
  ("Sad", "sad"),
  ("sad", "sad"),
  ("Surprise", "surprise"),
  ("surprise", "surprise"),
  ("surprised", "surprise"),
  ("calm", "calm")]

/-- `MultimodalFusion.normalize_emotion`: exact lookup of the raw label,
then of its lower-cased and stripped form, falling back to the
lower-cased-and-stripped string itself. -/
def normalize_emotion (emotion : String) : String :=
  let emotion_lower := pyStrip (pyLower emotion)
  (dictGet EMOTION_MAPPING emotion).getD
    ((dictGet EMOTION_MAPPING emotion_lower).getD emotion_lower)

/-- The result record of one modality.  Missing dict keys in the Python input
are `none` / `[]` here; `result.get` defaults are applied at use sites
exactly where the source applies them. -/
structure ModalityResult where
  dominant_emotion : Option String
  confidence_scores : Dict ℚ
  emotion_distribution : Dict ℚ
  total_frames_processed : Option ℚ
deriving Repr, DecidableEq

def emptyResult : ModalityResult := ⟨none, [], [], none⟩

/-- `MultimodalFusion._get_confidence`: direct key lookup of the target
emotion in `confidence_scores`, value divided by 100, default 0.5. -/
def get_confidence (result : ModalityResult) (emotion : String) : ℚ :=
  match dictGet result.confidence_scores emotion with
  | some v => v / 100
  | none => 1/2

/-- The loop in `_get_video_confidence`: first entry (in insertion order)
whose normalized key equals the target, value over total, 0 on zero
total, default 0.5 when no key matches. -/
def videoLookup : Dict ℚ → String → ℚ → ℚ
  | [], _, _ => 1/2
  | p :: rest, emotion, total =>
    if normalize_emotion p.1 = emotion then (if 0 < total then p.2 / total else 0)
    else videoLookup rest emotion total

/-- `MultimodalFusion._get_video_confidence`; `total_frames_processed`
defaults to 1 when the key is missing. -/
def get_video_confidence (result : ModalityResult) (emotion : String) : ℚ :=
  videoLookup result.emotion_distribution emotion (result.total_frames_processed.getD 1)

/-- The entries of `set([text_emotion, video_emotion, audio_emotion])` in
first-occurrence order (the Python set iteration order is unspecified). -/
def distinctEmotions (te ve ae : String) : List String :=
  [te] ++ (if ve = te then [] else [ve]) ++ (if ae = te ∨ ae = ve then [] else [ae])

/-- The weighted-voting loop body: each modality whose winner equals `e`
contributes its confidence times its weight. -/
def score_for (te ve ae : String) (tc vc ac wt wv wa : ℚ) (e : String) : ℚ :=
  (if e = te then tc * wt else 0) + (if e = ve then vc * wv else 0) +
    (if e = ae then ac * wa else 0)

def normalizedWinner (r : ModalityResult) : String :=
  normalize_emotion (r.dominant_emotion.getD "neutral")

/-- The `emotion_scores` dict built by the weighted-voting loop, before
rescaling to percentages. -/
def weightedScores (tr vr ar : ModalityResult) (wt wv wa : ℚ) : Dict ℚ :=
  let te := normalizedWinner tr
  let ve := normalizedWinner vr
  let ae := normalizedWinner ar
  let tc := get_confidence tr te
  let vc := get_video_confidence vr ve
  let ac := get_confidence ar ae
  (distinctEmotions te ve ae).map (fun e => (e, score_for te ve ae tc vc ac wt wv wa e))

/-- `max(emotion_scores, key=emotion_scores.get)` together with the
`emotion_scores[dominant_emotion]` lookup: the first pair carrying the
maximal value.  The score dict always holds 1 to 3 entries, so the `[]`
branch (where the Python `max` would raise) is unreachable. -/
def maxPairD : Dict ℚ → String × ℚ
  | [] => ("neutral", 0)
  | p :: rest => rest.foldl (fun best q => if best.2 < q.2 then q else best) p

/-- One entry of the per-modality breakdown in the fused output. -/
structure ModalityReport where
  emotion : String
  confidence : ℚ
deriving Repr, DecidableEq

/-- The dict returned by `fuse_results`. -/
structure FusedResult where
  dominant_emotion : String
  confidence : ℚ
  emotion_scores : Dict ℚ
  text_report : ModalityReport
  video_report : ModalityReport
  audio_report : ModalityReport
deriving Repr, DecidableEq

/-- The body of `fuse_results` up to the `return`, given the three weight
values already looked up. -/
def primaryResult (tr vr ar : ModalityResult) (wt wv wa : ℚ) : FusedResult :=
  let te := normalizedWinner tr
  let ve := normalizedWinner vr
  let ae := normalizedWinner ar
  let tc := get_confidence tr te
  let vc := get_video_confidence vr ve
  let ac := get_confidence ar ae
  let scores := weightedScores tr vr ar wt wv wa
  let dp := maxPairD scores
  let total := sumValues scores
  let final := if 0 < total then scores.map (fun p => (p.1, p.2 / total * 100)) else scores
  { dominant_emotion := dp.1,
    confidence := round2 (dp.2 * 100),
    emotion_scores := final,
    text_report := ⟨te, round2 tc⟩,
    video_report := ⟨ve, round2 vc⟩,
    audio_report := ⟨ae, round2 ac⟩ }

def defaultWeights : Dict ℚ := [("text", 3/10), ("video", 4/10), ("audio", 3/10)]

/-- The `try` branch of `fuse_results`.  In this typed embedding the only
representable exception of the Python body is a `KeyError` on
`weights["text"]`, `weights["video"]` or `weights["audio"]` (every
emotion in the score loop triggers at least the weight lookup of its own
modality), so the branch fails exactly when one of the three keys is
missing from the supplied weights dict. -/
def primaryFuse (tr vr ar : ModalityResult) (weights : Dict ℚ) : Option FusedResult :=
  match dictGet weights "text", dictGet weights "video", dictGet weights "audio" with
  | some wt, some wv, some wa => some (primaryResult tr vr ar wt wv wa)
  | _, _, _ => none

/-- `collections.Counter` insertion: the first occurrence fixes the position
of an entry, later occurrences bump its count. -/
def counterAdd (c : List (String × ℕ)) (s : String) : List (String × ℕ) :=
  if c.any (fun p => p.1 = s) then
    c.map (fun p => if p.1 = s then (p.1, p.2 + 1) else p)
  else c ++ [(s, 1)]

def counterOf (xs : List String) : List (String × ℕ) := xs.foldl counterAdd []

/-- `Counter(xs).most_common(1)[0][0]`: `most_common` sorts stably by
descending count, so the head is the earliest-inserted key of maximal
count.  `xs` always has three elements here, so the `[]` branch (where
Python would raise `IndexError`) is unreachable. -/
def mostCommon1 (xs : List String) : String :=
  match counterOf xs with
  | [] => "neutral"
  | p :: rest => (rest.foldl (fun best q => if best.2 < q.2 then q else best) p).1

/-- The `except` branch of `fuse_results`: majority vote over the three
normalized dominant labels. -/
def fallbackFuse (tr vr ar : ModalityResult) : FusedResult :=
  let te := normalizedWinner tr
  let ve := normalizedWinner vr
  let ae := normalizedWinner ar
  let dominant := mostCommon1 [te, ve, ae]
  { dominant_emotion := dominant,
    confidence := 50,
    emotion_scores := [(dominant, 100)],
    text_report := ⟨te, 333/10⟩,
    video_report := ⟨ve, 333/10⟩,
    audio_report := ⟨ae, 333/10⟩ }

/-- `MultimodalFusion.fuse_results`: `weights=None` selects the default
weight dict; any internal failure of the primary path falls back to the
majority vote. -/
def fuse_results (tr vr ar : ModalityResult) (weights : Option (Dict ℚ)) : FusedResult :=
  match primaryFuse tr vr ar (weights.getD defaultWeights) with
  | some r => r
  | none => fallbackFuse tr vr ar

/-! ### gemini_chat.py -/

def EMOTIONS : Dict String := [
  ("Neutral", "Let\x27s do something fun! Would you like to play a quick game, hear an interesting fact, or get a fun challenge?"),
  ("Happy", "You\x27re in a great mood! Let\x27s keep the positivity going. Want to listen to an uplifting story, get a fun challenge, or share a happy memory?"),
  ("Sad", "I\x27m here for you. Would you like some calming music recommendations, a motivational story, or a virtual hug?"),
  ("Angry", "I understand frustration can be tough. Want to try a quick breathing exercise, hear a calming story, or vent your thoughts?"),
  ("Fear", "You\x27re not alone! Let\x27s ease your mind. Want a comforting quote, a guided relaxation, or an inspiring success story?"),
  ("Disgust", "Let\x27s distract your mind. Want to hear a joke, learn a new interesting fact, or play a quick word game?"),
  ("Surprise", "Surprises can be fun! Want to share what happened, hear about a surprising event, or play a quick reaction game?"),
  ("Calm", "A peaceful moment is precious. Would you like to try meditation, listen to soothing nature sounds, or explore a new mindfulness tip?")]

def MOOD_ALIASES : Dict String := [
  ("fearful", "fear"),
  ("fear", "fear"),
  ("disgusted", "disgust"),
  ("disgust", "disgust"),
  ("surprised", "surprise"),
  ("surprise", "surprise"),
  ("neutral", "neutral"),
  ("happy", "happy"),
  ("sad", "sad"),
  ("angry", "angry"),
  ("calm", "calm")]

def normalize_mood (mood : String) : String :=
  let key := pyLower (pyStrip mood)
  pyTitle ((dictGet MOOD_ALIASES key).getD key)

def get_mood_recommendation (mood : String) : String :=
  (dictGet EMOTIONS (normalize_mood mood)).getD
    "I didn\x27t recognize that mood. Can you describe how you\x27re feeling?"

/-- `process_message`: the Gemini client is an external collaborator,
passed in as `genai`. -/
def process_message (genai : String → String) (message : String) : String :=
  let mood := normalize_mood message
  if (dictGet EMOTIONS mood).isSome then get_mood_recommendation mood
  else genai message

/-! ### Concrete inputs -/

def textHappy : ModalityResult := ⟨some "happy", [("happy", 90)], [], none⟩
def videoSad : ModalityResult := ⟨some "sad", [], [("sad", 9)], some 10⟩
def audioSad : ModalityResult := ⟨some "sad", [("sad", 90)], [], none⟩

/-- The majority label among the three modality winners with ties broken
by first-occurrence order text, video, audio, as §4.4 words it: a label
carried by at least two modalities wins, otherwise the text label does. -/
def majorityVote (e1 e2 e3 : String) : String :=
  if e2 = e3 ∧ ¬ e1 = e2 then e2 else e1

def rawKeyScore : ModalityResult := ⟨some "happy", [("Happy", 90)], [], none⟩

def videoHappy8of10 : ModalityResult := ⟨none, [], [("Happy", 8)], some 10⟩
def videoHappy8zero : ModalityResult := ⟨none, [], [("Happy", 8)], some 0⟩

def textZero : ModalityResult := ⟨some "happy", [("happy", 0)], [], none⟩
def videoZero : ModalityResult := ⟨some "happy", [], [("happy", 0)], some 10⟩
def audioZero : ModalityResult := ⟨some "happy", [("happy", 0)], [], none⟩

def videoNoTotal : ModalityResult := ⟨none, [], [("Happy", 8)], none⟩

/-! ### Helper lemmas -/

lemma roundHalfEven_intCast (n : ℤ) : roundHalfEven (n : ℚ) = n := by
  unfold roundHalfEven
  rw [Int.floor_intCast]
  norm_num

lemma round2_cast (x : ℚ) (n : ℤ) (h : x * 100 = (n : ℚ)) : round2 x = (n : ℚ) / 100 := by
  rw [round2, h, roundHalfEven_intCast]

lemma maxFold_mem : ∀ (l : Dict ℚ) (p : String × ℚ),
    l.foldl (fun best q => if best.2 < q.2 then q else best) p = p ∨
      l.foldl (fun best q => if best.2 < q.2 then q else best) p ∈ l
  | [], _ => Or.inl rfl
  | q :: rest, p => by
    rw [List.foldl_cons]
    rcases maxFold_mem rest (if p.2 < q.2 then q else p) with h | h
    · rw [h]
      by_cases hpq : p.2 < q.2
      · rw [if_pos hpq]; exact Or.inr (List.mem_cons_self _ _)
      · rw [if_neg hpq]; exact Or.inl rfl
    · exact Or.inr (List.mem_cons_of_mem _ h)

lemma maxPairD_mem (l : Dict ℚ) (h : l ≠ []) : maxPairD l ∈ l := by
  cases l with
  | nil => exact absurd rfl h
  | cons p rest =>
    simp only [maxPairD]
    rcases maxFold_mem rest p with h1 | h1
    · rw [h1]; exact List.mem_cons_self _ _
    · exact List.mem_cons_of_mem _ h1

lemma map_pair_fst {g : String → ℚ} : ∀ l : List String,
    ((l.map (fun e => (e, g e))).map Prod.fst) = l
  | [] => rfl
  | x :: xs => by rw [List.map_cons, List.map_cons, map_pair_fst xs]

lemma weightedScores_keys (tr vr ar : ModalityResult) (wt wv wa : ℚ) :
    (weightedScores tr vr ar wt wv wa).map Prod.fst =
      distinctEmotions (normalizedWinner tr) (normalizedWinner vr) (normalizedWinner ar) := by
  simp only [weightedScores]
  exact map_pair_fst _

lemma mem_distinctEmotions {x te ve ae : String} (h : x ∈ distinctEmotions te ve ae) :
    x = te ∨ x = ve ∨ x = ae := by
  simp only [distinctEmotions, List.mem_append, List.mem_singleton] at h
  rcases h with (h | h) | h
  · exact Or.inl h
  · split_ifs at h <;> simp_all
  · split_ifs at h <;> simp_all

lemma distinctEmotions_nodup (te ve ae : String) : (distinctEmotions te ve ae).Nodup := by
  unfold distinctEmotions
  split_ifs with h1 h2 <;> simp_all <;> tauto

lemma dictGet_of_mem_nodup {α : Type} : ∀ (l : Dict α) (p : String × α),
    (l.map Prod.fst).Nodup → p ∈ l → dictGet l p.1 = some p.2
  | [], p, _, hp => by simp at hp
  | q :: rest, p, hnd, hp => by
    rw [List.map_cons, List.nodup_cons] at hnd
    rcases List.mem_cons.mp hp with h | h
    · subst h; simp [dictGet]
    · have hne : q.1 ≠ p.1 := by
        intro he
        exact hnd.1 (he ▸ List.mem_map_of_mem Prod.fst h)
      rw [dictGet, if_neg hne]
      exact dictGet_of_mem_nodup rest p hnd.2 h

lemma dictGet_mem {α : Type} : ∀ (l : Dict α) (k : String) (v : α),
    dictGet l k = some v → ∃ p ∈ l, p.2 = v
  | [], k, v, h => by simp [dictGet] at h
  | q :: rest, k, v, h => by
    rw [dictGet] at h
    by_cases hq : q.1 = k
    · rw [if_pos hq] at h
      exact ⟨q, List.mem_cons_self _ _, Option.some_injective _ h⟩
    · rw [if_neg hq] at h
      obtain ⟨p, hp, hv⟩ := dictGet_mem rest k v h
      exact ⟨p, List.mem_cons_of_mem _ hp, hv⟩

lemma sumValues_rescale (l : Dict ℚ) (t : ℚ) :
    sumValues (l.map (fun p => (p.1, p.2 / t * 100))) = sumValues l / t * 100 := by
  induction l with
  | nil => simp [sumValues]
  | cons p rest ih =>
    simp only [sumValues, List.map_cons, List.sum_cons] at *
    rw [ih]
    ring

lemma videoLookup_find (dist : Dict ℚ) (e : String) (total : ℚ) :
    videoLookup dist e total =
      match dist.find? (fun p => normalize_emotion p.1 == e) with
      | some p => if 0 < total then p.2 / total else 0
      | none => 1/2 := by
  induction dist with
  | nil => rfl
  | cons p rest ih =>
    by_cases h : normalize_emotion p.1 = e
    · simp [videoLookup, h, List.find?]
    · have hb : (normalize_emotion p.1 == e) = false := by simp [h]
      simp [videoLookup, h, List.find?, hb, ih]

lemma mostCommon1_three (e1 e2 e3 : String) :
    mostCommon1 [e1, e2, e3] = majorityVote e1 e2 e3 := by
  by_cases h12 : e1 = e2 <;> by_cases h13 : e1 = e3 <;> by_cases h23 : e2 = e3 <;>
    simp_all [mostCommon1, counterOf, counterAdd, majorityVote, List.foldl, List.any]

lemma fuse_results_default (tr vr ar : ModalityResult) :
    fuse_results tr vr ar none = primaryResult tr vr ar (3/10) (4/10) (3/10) := rfl

lemma weightedScores_conflict :
    weightedScores textHappy videoSad audioSad (3/10) (4/10) (3/10) =
      [("happy", 27/100), ("sad", 63/100)] := by
  have h1 : normalizedWinner textHappy = "happy" := rfl
  have h2 : normalizedWinner videoSad = "sad" := rfl
  have h3 : normalizedWinner audioSad = "sad" := rfl
  have h4 : get_confidence textHappy "happy" = 9/10 := by
    have h : dictGet textHappy.confidence_scores "happy" = some 90 := rfl
    simp only [get_confidence, h]; norm_num
  have h5 : get_video_confidence videoSad "sad" = 9/10 := by
    have h : normalize_emotion "sad" = "sad" := rfl
    simp only [get_video_confidence, videoSad, videoLookup, h, Option.getD]; norm_num
  have h6 : get_confidence audioSad "sad" = 9/10 := by
    have h : dictGet audioSad.confidence_scores "sad" = some 90 := rfl
    simp only [get_confidence, h]; norm_num
  have hd : distinctEmotions "happy" "sad" "sad" = ["happy", "sad"] := rfl
  have hne : ¬ (("sad" : String) = "happy") := by decide
  have hne2 : ¬ (("happy" : String) = "sad") := by decide
  simp only [weightedScores, h1, h2, h3, h4, h5, h6, hd, List.map, score_for, if_pos rfl,
    if_neg hne, if_neg hne2]
  norm_num

lemma primaryResult_conflict :
    primaryResult textHappy videoSad audioSad (3/10) (4/10) (3/10) =
      ⟨"sad", 63, [("happy", 30), ("sad", 70)], ⟨"happy", 9/10⟩, ⟨"sad", 9/10⟩, ⟨"sad", 9/10⟩⟩ := by
  have h1 : normalizedWinner textHappy = "happy" := rfl
  have h2 : normalizedWinner videoSad = "sad" := rfl
  have h3 : normalizedWinner audioSad = "sad" := rfl
  have h4 : get_confidence textHappy "happy" = 9/10 := by
    have h : dictGet textHappy.confidence_scores "happy" = some 90 := rfl
    simp only [get_confidence, h]; norm_num
  have h5 : get_video_confidence videoSad "sad" = 9/10 := by
    have h : normalize_emotion "sad" = "sad" := rfl
    simp only [get_video_confidence, videoSad, videoLookup, h, Option.getD]; norm_num
  have h6 : get_confidence audioSad "sad" = 9/10 := by
    have h : dictGet audioSad.confidence_scores "sad" = some 90 := rfl
    simp only [get_confidence, h]; norm_num
  have hw := weightedScores_conflict
  have hmax : maxPairD [("happy", (27:ℚ)/100), ("sad", (63:ℚ)/100)] = ("sad", 63/100) := by
    simp only [maxPairD, List.foldl]
    rw [if_pos (by norm_num : ((("happy", (27:ℚ)/100) : String × ℚ).2 < (("sad", (63:ℚ)/100) : String × ℚ).2))]
  have hsum : sumValues [("happy", (27:ℚ)/100), ("sad", (63:ℚ)/100)] = 9/10 := by
    simp [sumValues]; norm_num
  have hr1 : round2 (((("sad", (63:ℚ)/100) : String × ℚ).2) * 100) = 63 := by
    rw [round2_cast _ 6300 (by norm_num)]; norm_num
  have hr2 : round2 ((9:ℚ)/10) = 9/10 := by
    rw [round2_cast _ 90 (by norm_num)]; norm_num
  simp only [primaryResult, h1, h2, h3, h4, h5, h6, hw, hmax, hsum, hr1, hr2]
  rw [if_pos (by norm_num : (0:ℚ) < 9/10)]
  simp only [List.map, FusedResult.mk.injEq, ModalityReport.mk.injEq, List.cons.injEq,
    Prod.mk.injEq]
  norm_num

lemma primaryResult_empty :
    primaryResult emptyResult emptyResult emptyResult (3/10) (4/10) (3/10) =
      ⟨"neutral", 50, [("neutral", 100)], ⟨"neutral", 1/2⟩, ⟨"neutral", 1/2⟩, ⟨"neutral", 1/2⟩⟩ := by
  have h1 : normalizedWinner emptyResult = "neutral" := rfl
  have h4 : get_confidence emptyResult "neutral" = 1/2 := rfl
  have h5 : get_video_confidence emptyResult "neutral" = 1/2 := rfl
  have hd : distinctEmotions "neutral" "neutral" "neutral" = ["neutral"] := rfl
  have hw : weightedScores emptyResult emptyResult emptyResult (3/10) (4/10) (3/10) =
      [("neutral", 1/2)] := by
    simp only [weightedScores, h1, h4, h5, hd, List.map, score_for, if_pos rfl]
    norm_num
  have hmax : maxPairD [("neutral", (1:ℚ)/2)] = ("neutral", 1/2) := rfl
  have hsum : sumValues [("neutral", (1:ℚ)/2)] = 1/2 := by simp [sumValues]
  have hr1 : round2 (((("neutral", (1:ℚ)/2) : String × ℚ).2) * 100) = 50 := by
    rw [round2_cast _ 5000 (by norm_num)]; norm_num
  have hr2 : round2 ((1:ℚ)/2) = 1/2 := by
    rw [round2_cast _ 50 (by norm_num)]; norm_num
  simp only [primaryResult, h1, h4, h5, hw, hmax, hsum, hr1, hr2]
  rw [if_pos (by norm_num : (0:ℚ) < 1/2)]
  simp only [List.map, FusedResult.mk.injEq, ModalityReport.mk.injEq, List.cons.injEq,
    Prod.mk.injEq]
  norm_num

/-! ### More helper lemmas -/

lemma weightedScores_ne_nil (tr vr ar : ModalityResult) (wt wv wa : ℚ) :
    weightedScores tr vr ar wt wv wa ≠ [] := by
  simp [weightedScores, distinctEmotions]

lemma map_rescale_fst (t : ℚ) : ∀ l : Dict ℚ,
    (l.map (fun p => (p.1, p.2 / t * 100))).map Prod.fst = l.map Prod.fst
  | [] => rfl
  | p :: rest => by
    rw [List.map_cons, List.map_cons, List.map_cons, map_rescale_fst t rest]

lemma sumValues_zero : ∀ l : List String, sumValues (l.map (fun e => (e, (0:ℚ)))) = 0
  | [] => rfl
  | x :: xs => by
    have ih := sumValues_zero xs
    simp only [sumValues, List.map_cons, List.sum_cons] at ih ⊢
    rw [ih]
    norm_num

lemma primaryResult_dominant (tr vr ar : ModalityResult) (wt wv wa : ℚ) :
    (primaryResult tr vr ar wt wv wa).dominant_emotion =
      (maxPairD (weightedScores tr vr ar wt wv wa)).1 := rfl

lemma primaryResult_confidence (tr vr ar : ModalityResult) (wt wv wa : ℚ) :
    (primaryResult tr vr ar wt wv wa).confidence =
      round2 ((maxPairD (weightedScores tr vr ar wt wv wa)).2 * 100) := rfl

lemma primaryResult_scores (tr vr ar : ModalityResult) (wt wv wa : ℚ) :
    (primaryResult tr vr ar wt wv wa).emotion_scores =
      (if 0 < sumValues (weightedScores tr vr ar wt wv wa)
       then (weightedScores tr vr ar wt wv wa).map
         (fun p => (p.1, p.2 / sumValues (weightedScores tr vr ar wt wv wa) * 100))
       else weightedScores tr vr ar wt wv wa) := rfl

lemma videoLookup_bounds (dist : Dict ℚ) (e : String) (t : ℚ)
    (hb : ∀ p ∈ dist, 0 ≤ p.2 ∧ p.2 ≤ t) :
    0 ≤ videoLookup dist e t ∧ videoLookup dist e t ≤ 1 := by
  induction dist with
  | nil => simp [videoLookup]; norm_num
  | cons p rest ih =>
    rw [videoLookup]
    by_cases h : normalize_emotion p.1 = e
    · rw [if_pos h]
      by_cases ht : 0 < t
      · rw [if_pos ht]
        obtain ⟨h0, hT⟩ := hb p (List.mem_cons_self _ _)
        exact ⟨div_nonneg h0 (le_of_lt ht), (div_le_one ht).mpr hT⟩
      · rw [if_neg ht]; norm_num
    · rw [if_neg h]
      exact ih (fun q hq => hb q (List.mem_cons_of_mem _ hq))

/-! ### Claim theorems -/

/-- C1: for the triple where the normalized winner of the text modality is "happy"
with extracted confidence 0.9 and the video and audio winners are both "sad"
with extracted confidence 0.9 each, fusion under the default weights (text 0.3,
video 0.4, audio 0.3) computes pre-rescale weighted scores happy = 0.27 and
sad = 0.63, returns dominant emotion "sad", and rescales the emotion scores to
happy = 30 and sad = 70 (exact in rational arithmetic). -/
theorem fuse_conflict_sad_wins :
    weightedScores textHappy videoSad audioSad (3/10) (4/10) (3/10) =
      [("happy", 27/100), ("sad", 63/100)] ∧
    (fuse_results textHappy videoSad audioSad none).dominant_emotion = "sad" ∧
    (fuse_results textHappy videoSad audioSad none).emotion_scores =
      [("happy", 30), ("sad", 70)] := by
  refine ⟨weightedScores_conflict, ?_, ?_⟩ <;> rw [fuse_results_default, primaryResult_conflict]

/-- C2: fusion never propagates a failure to the caller: under the default
weights the primary path always succeeds, the fused result of any triple is the
primary result, and three empty input records still produce a fused result
through the default 0.5 confidences. -/
theorem fuse_never_fails :
    (∀ tr vr ar : ModalityResult, (primaryFuse tr vr ar defaultWeights).isSome = true) ∧
    (∀ tr vr ar : ModalityResult,
      fuse_results tr vr ar none = primaryResult tr vr ar (3/10) (4/10) (3/10)) ∧
    fuse_results emptyResult emptyResult emptyResult none =
      ⟨"neutral", 50, [("neutral", 100)], ⟨"neutral", 1/2⟩, ⟨"neutral", 1/2⟩,
        ⟨"neutral", 1/2⟩⟩ := by
  refine ⟨fun tr vr ar => rfl, fun tr vr ar => rfl, ?_⟩
  rw [fuse_results_default, primaryResult_empty]

/-- C3 counterexample: a score map holding the raw key "Happy", whose
normalization equals the target "happy", still yields the default confidence
0.5 rather than 90/100: the score-map extractor does not normalize keys. -/
theorem get_confidence_ignores_key_normalization :
    normalize_emotion "Happy" = "happy" ∧
    get_confidence rawKeyScore "happy" = 1/2 ∧
    ((1:ℚ)/2 ≠ 90/100) :=
  ⟨rfl, rfl, by norm_num⟩

/-- C3 (amended): the score-map confidence extractor looks the target emotion
up directly as a key of the score map (exact string match; keys are not passed
through the normalizer); when present it returns the value of that key divided by
100, otherwise the default confidence 0.5. -/
theorem get_confidence_direct_lookup (r : ModalityResult) (e : String) :
    (∀ v : ℚ, dictGet r.confidence_scores e = some v → get_confidence r e = v / 100) ∧
    (dictGet r.confidence_scores e = none → get_confidence r e = 1/2) := by
  constructor
  · intro v hv; simp [get_confidence, hv]
  · intro hv; simp [get_confidence, hv]

/-- Witness for the amended C3 at concrete inputs. -/
theorem get_confidence_direct_lookup_witness :
    get_confidence textHappy "happy" = 90 / 100 ∧ get_confidence emptyResult "happy" = 1/2 :=
  ⟨(get_confidence_direct_lookup textHappy "happy").1 90 rfl,
   (get_confidence_direct_lookup emptyResult "happy").2 rfl⟩

/-- C4: the frame-distribution extractor returns, for the first frame-count
entry whose normalized key equals the target emotion, its count divided by the
frames-processed total, 0 when that total is zero, and the default 0.5 when no
key matches; frame counts Happy = 8 of 10 frames give 0.8 for target "happy",
and a zero total gives 0. -/
theorem get_video_confidence_spec (r : ModalityResult) (e : String) :
    (∀ p : String × ℚ,
      r.emotion_distribution.find? (fun q => normalize_emotion q.1 == e) = some p →
      get_video_confidence r e =
        (if 0 < r.total_frames_processed.getD 1 then p.2 / r.total_frames_processed.getD 1
         else 0)) ∧
    (r.emotion_distribution.find? (fun q => normalize_emotion q.1 == e) = none →
      get_video_confidence r e = 1/2) ∧
    get_video_confidence videoHappy8of10 "happy" = 8/10 ∧
    get_video_confidence videoHappy8zero "happy" = 0 := by
  have hn : normalize_emotion "Happy" = "happy" := rfl
  refine ⟨?_, ?_, ?_, ?_⟩
  · intro p hp; simp only [get_video_confidence, videoLookup_find, hp]
  · intro hp; simp only [get_video_confidence, videoLookup_find, hp]
  · simp only [get_video_confidence, videoHappy8of10, videoLookup, hn, Option.getD]
    norm_num
  · simp only [get_video_confidence, videoHappy8zero, videoLookup, hn, Option.getD]
    norm_num

/-- Witness for C4 at concrete inputs. -/
theorem get_video_confidence_spec_witness :
    (videoSad.emotion_distribution.find? (fun q => normalize_emotion q.1 == "sad") =
      some ("sad", 9)) ∧
    get_video_confidence videoSad "sad" =
      (if 0 < videoSad.total_frames_processed.getD 1
       then 9 / videoSad.total_frames_processed.getD 1 else 0) ∧
    (emptyResult.emotion_distribution.find? (fun q => normalize_emotion q.1 == "x") = none) ∧
    get_video_confidence emptyResult "x" = 1/2 :=
  ⟨rfl, (get_video_confidence_spec videoSad "sad").1 ("sad", 9) rfl, rfl,
   (get_video_confidence_spec emptyResult "x").2.1 rfl⟩

/-- C5: on the primary (non-fallback) fusion path, the confidence field of
the returned result equals the weighted score of the dominant emotion taken before
the rescaling of emotion scores to percentages, multiplied by 100 and rounded
to two decimals — the pre-rescale dominant score, not the rescaled
percentage. -/
theorem primary_confidence_pre_rescale (tr vr ar : ModalityResult) (wt wv wa : ℚ) :
    ∃ s : ℚ,
      dictGet (weightedScores tr vr ar wt wv wa)
        (primaryResult tr vr ar wt wv wa).dominant_emotion = some s ∧
      (primaryResult tr vr ar wt wv wa).confidence = round2 (s * 100) := by
  refine ⟨(maxPairD (weightedScores tr vr ar wt wv wa)).2, ?_, primaryResult_confidence tr vr ar wt wv wa⟩
  rw [primaryResult_dominant]
  have hnd : ((weightedScores tr vr ar wt wv wa).map Prod.fst).Nodup := by
    rw [weightedScores_keys]; exact distinctEmotions_nodup _ _ _
  exact dictGet_of_mem_nodup _ _ hnd
    (maxPairD_mem _ (weightedScores_ne_nil tr vr ar wt wv wa))

/-- C6: the fallback path normalizes the dominant label of each modality
(defaulting to "neutral" when absent), picks the majority label with ties
broken by first-occurrence order text, video, audio, and returns confidence 50,
emotion scores mapping the winner to 100, and a flat 33.3 confidence for every
modality in the per-modality breakdown; being a total function it never
fails. -/
theorem fallback_majority_vote (tr vr ar : ModalityResult) :
    fallbackFuse tr vr ar =
      { dominant_emotion :=
          majorityVote (normalizedWinner tr) (normalizedWinner vr) (normalizedWinner ar),
        confidence := 50,
        emotion_scores :=
          [(majorityVote (normalizedWinner tr) (normalizedWinner vr) (normalizedWinner ar),
            100)],
        text_report := ⟨normalizedWinner tr, 333/10⟩,
        video_report := ⟨normalizedWinner vr, 333/10⟩,
        audio_report := ⟨normalizedWinner ar, 333/10⟩ } := by
  simp only [fallbackFuse, mostCommon1_three]

/-- C7: for every triple fused under the default weights, the dominant
emotion is one of the normalized winners of the three modalities — never a novel
emotion — and the emotion-score keys are exactly the distinct normalized
winners in first-occurrence order: emotions no modality voted for never appear
in the output distribution. -/
theorem fuse_dominant_among_winners (tr vr ar : ModalityResult) :
    ((fuse_results tr vr ar none).dominant_emotion = normalizedWinner tr ∨
     (fuse_results tr vr ar none).dominant_emotion = normalizedWinner vr ∨
     (fuse_results tr vr ar none).dominant_emotion = normalizedWinner ar) ∧
    (fuse_results tr vr ar none).emotion_scores.map Prod.fst =
      distinctEmotions (normalizedWinner tr) (normalizedWinner vr) (normalizedWinner ar) := by
  rw [fuse_results_default]
  constructor
  · rw [primaryResult_dominant]
    have h2 : (maxPairD (weightedScores tr vr ar (3/10) (4/10) (3/10))).1 ∈
        (weightedScores tr vr ar (3/10) (4/10) (3/10)).map Prod.fst :=
      List.mem_map_of_mem Prod.fst
        (maxPairD_mem _ (weightedScores_ne_nil tr vr ar (3/10) (4/10) (3/10)))
    rw [weightedScores_keys] at h2
    exact mem_distinctEmotions h2
  · rw [primaryResult_scores]
    split_ifs with h
    · rw [map_rescale_fst]; exact weightedScores_keys tr vr ar (3/10) (4/10) (3/10)
    · exact weightedScores_keys tr vr ar (3/10) (4/10) (3/10)

/-- C8: on the primary fusion path the rescaled emotion scores sum to
exactly 100 whenever the total weighted score is strictly positive, and to 0
when all three per-modality confidences are zero, as well as when all three
modality weights are zero. -/
theorem emotion_scores_sum (tr vr ar : ModalityResult) (wt wv wa : ℚ) :
    (0 < sumValues (weightedScores tr vr ar wt wv wa) →
      sumValues (primaryResult tr vr ar wt wv wa).emotion_scores = 100) ∧
    ((get_confidence tr (normalizedWinner tr) = 0 ∧
      get_video_confidence vr (normalizedWinner vr) = 0 ∧
      get_confidence ar (normalizedWinner ar) = 0) →
      sumValues (primaryResult tr vr ar wt wv wa).emotion_scores = 0) ∧
    ((wt = 0 ∧ wv = 0 ∧ wa = 0) →
      sumValues (primaryResult tr vr ar wt wv wa).emotion_scores = 0) := by
  refine ⟨?_, ?_, ?_⟩
  · intro h
    rw [primaryResult_scores, if_pos h, sumValues_rescale, div_self (ne_of_gt h), one_mul]
  · rintro ⟨h1, h2, h3⟩
    have hz : weightedScores tr vr ar wt wv wa =
        (distinctEmotions (normalizedWinner tr) (normalizedWinner vr)
          (normalizedWinner ar)).map (fun e => (e, (0:ℚ))) := by
      simp [weightedScores, h1, h2, h3, score_for]
    rw [primaryResult_scores, hz, sumValues_zero]
    rw [if_neg (lt_irrefl 0), sumValues_zero]
  · rintro ⟨h1, h2, h3⟩
    subst h1
    subst h2
    subst h3
    have hz : weightedScores tr vr ar 0 0 0 =
        (distinctEmotions (normalizedWinner tr) (normalizedWinner vr)
          (normalizedWinner ar)).map (fun e => (e, (0:ℚ))) := by
      simp [weightedScores, score_for]
    rw [primaryResult_scores, hz, sumValues_zero]
    rw [if_neg (lt_irrefl 0), sumValues_zero]

/-- Witness for C8 at concrete inputs realizing all three branches. -/
theorem emotion_scores_sum_witness :
    (0 < sumValues (weightedScores textHappy videoSad audioSad (3/10) (4/10) (3/10)) ∧
     sumValues (primaryResult textHappy videoSad audioSad (3/10) (4/10) (3/10)).emotion_scores
       = 100) ∧
    ((get_confidence textZero (normalizedWinner textZero) = 0 ∧
      get_video_confidence videoZero (normalizedWinner videoZero) = 0 ∧
      get_confidence audioZero (normalizedWinner audioZero) = 0) ∧
     sumValues (primaryResult textZero videoZero audioZero (3/10) (4/10) (3/10)).emotion_scores
       = 0) ∧
    sumValues (primaryResult textHappy videoSad audioSad 0 0 0).emotion_scores = 0 := by
  have hpos : 0 < sumValues (weightedScores textHappy videoSad audioSad (3/10) (4/10) (3/10)) := by
    rw [weightedScores_conflict]
    simp [sumValues]
    norm_num
  have hz1 : get_confidence textZero (normalizedWinner textZero) = 0 := by
    have h1 : normalizedWinner textZero = "happy" := rfl
    have h2 : dictGet textZero.confidence_scores "happy" = some 0 := rfl
    rw [h1]
    simp only [get_confidence, h2]
    norm_num
  have hz2 : get_video_confidence videoZero (normalizedWinner videoZero) = 0 := by
    have h1 : normalizedWinner videoZero = "happy" := rfl
    have hn : normalize_emotion "happy" = "happy" := rfl
    rw [h1]
    simp only [get_video_confidence, videoZero, videoLookup, hn, Option.getD]
    norm_num
  have hz3 : get_confidence audioZero (normalizedWinner audioZero) = 0 := by
    have h1 : normalizedWinner audioZero = "happy" := rfl
    have h2 : dictGet audioZero.confidence_scores "happy" = some 0 := rfl
    rw [h1]
    simp only [get_confidence, h2]
    norm_num
  exact ⟨⟨hpos, (emotion_scores_sum textHappy videoSad audioSad (3/10) (4/10) (3/10)).1 hpos⟩,
    ⟨⟨hz1, hz2, hz3⟩,
     (emotion_scores_sum textZero videoZero audioZero (3/10) (4/10) (3/10)).2.1 ⟨hz1, hz2, hz3⟩⟩,
    (emotion_scores_sum textHappy videoSad audioSad 0 0 0).2.2 ⟨rfl, rfl, rfl⟩⟩

/-- C9 counterexample: a video result with non-negative frame counts but a
missing total_frames_processed field is divided by the default total 1, giving
confidence 8 for target "happy" — outside the unit interval, contrary to the
claim, which includes the missing-total case. -/
theorem video_confidence_exceeds_one :
    videoNoTotal.total_frames_processed = none ∧
    videoNoTotal.emotion_distribution = [("Happy", 8)] ∧
    ((0:ℚ) ≤ 8) ∧
    get_video_confidence videoNoTotal "happy" = 8 ∧
    ¬ get_video_confidence videoNoTotal "happy" ≤ 1 := by
  have hn : normalize_emotion "Happy" = "happy" := rfl
  have he : get_video_confidence videoNoTotal "happy" = 8 := by
    simp only [get_video_confidence, videoNoTotal, videoLookup, hn, Option.getD]
    norm_num
  exact ⟨rfl, rfl, by norm_num, he, by rw [he]; norm_num⟩

/-- C9 (amended): the extracted per-modality confidences lie in the unit
interval provided score-map values lie in the 0 to 100 range and frame counts
are non-negative and bounded by the effective frames-processed total, that is,
the total_frames_processed value with a missing field taken as 1. -/
theorem confidence_in_unit_interval (r : ModalityResult) (e : String) :
    ((∀ p ∈ r.confidence_scores, 0 ≤ p.2 ∧ p.2 ≤ 100) →
      0 ≤ get_confidence r e ∧ get_confidence r e ≤ 1) ∧
    ((∀ p ∈ r.emotion_distribution, 0 ≤ p.2 ∧ p.2 ≤ r.total_frames_processed.getD 1) →
      0 ≤ get_video_confidence r e ∧ get_video_confidence r e ≤ 1) := by
  constructor
  · intro hb
    rcases hv : dictGet r.confidence_scores e with _ | v
    · simp only [get_confidence, hv]
      norm_num
    · obtain ⟨p, hp, hpv⟩ := dictGet_mem _ _ _ hv
      obtain ⟨h0, h100⟩ := hb p hp
      rw [hpv] at h0 h100
      simp only [get_confidence, hv]
      exact ⟨div_nonneg h0 (by norm_num), by rw [div_le_one (by norm_num)]; exact h100⟩
  · intro hb
    exact videoLookup_bounds r.emotion_distribution e (r.total_frames_processed.getD 1) hb

/-- Witness for the amended C9 at concrete inputs. -/
theorem confidence_in_unit_interval_witness :
    (0 ≤ get_confidence textHappy "happy" ∧ get_confidence textHappy "happy" ≤ 1) ∧
    (0 ≤ get_video_confidence videoSad "sad" ∧ get_video_confidence videoSad "sad" ≤ 1) := by
  refine ⟨(confidence_in_unit_interval textHappy "happy").1 ?_,
          (confidence_in_unit_interval videoSad "sad").2 ?_⟩
  · intro p hp
    simp only [textHappy] at hp
    rw [List.mem_singleton] at hp
    subst hp
    norm_num
  · intro p hp
    simp only [videoSad] at hp
    rw [List.mem_singleton] at hp
    subst hp
    simp only [videoSad, Option.getD]
    norm_num

/-- C10: process_message on "Sad" returns exactly the canned supportive sad
message for every generative collaborator (so no generative call is consulted),
and an input such as "xyzzy", whose normalization matches no canonical mood
key, is delegated to the collaborator with the raw input, its response returned
verbatim. -/
theorem respond_sad_and_delegate (genai : String → String) :
    process_message genai "Sad" =
      "I\x27m here for you. Would you like some calming music recommendations, a motivational story, or a virtual hug?" ∧
    process_message genai "xyzzy" = genai "xyzzy" :=
  ⟨rfl, rfl⟩

/-- Witness for C5 at concrete inputs. -/
theorem primary_confidence_pre_rescale_witness :
    ∃ s : ℚ,
      dictGet (weightedScores textHappy videoSad audioSad (3/10) (4/10) (3/10))
        (primaryResult textHappy videoSad audioSad (3/10) (4/10) (3/10)).dominant_emotion
        = some s ∧
      (primaryResult textHappy videoSad audioSad (3/10) (4/10) (3/10)).confidence =
        round2 (s * 100) :=
  primary_confidence_pre_rescale textHappy videoSad audioSad (3/10) (4/10) (3/10)

/-- Witness for C6 at concrete inputs. -/
theorem fallback_majority_vote_witness :
    fallbackFuse textHappy videoSad audioSad =
      { dominant_emotion :=
          majorityVote (normalizedWinner textHappy) (normalizedWinner videoSad)
            (normalizedWinner audioSad),
        confidence := 50,
        emotion_scores :=
          [(majorityVote (normalizedWinner textHappy) (normalizedWinner videoSad)
              (normalizedWinner audioSad), 100)],
        text_report := ⟨normalizedWinner textHappy, 333/10⟩,
        video_report := ⟨normalizedWinner videoSad, 333/10⟩,
        audio_report := ⟨normalizedWinner audioSad, 333/10⟩ } :=
  fallback_majority_vote textHappy videoSad audioSad

/-- Witness for C7 at concrete inputs. -/
theorem fuse_dominant_among_winners_witness :
    ((fuse_results textHappy videoSad audioSad none).dominant_emotion =
        normalizedWinner textHappy ∨
     (fuse_results textHappy videoSad audioSad none).dominant_emotion =
        normalizedWinner videoSad ∨
     (fuse_results textHappy videoSad audioSad none).dominant_emotion =
        normalizedWinner audioSad) ∧
    (fuse_results textHappy videoSad audioSad none).emotion_scores.map Prod.fst =
      distinctEmotions (normalizedWinner textHappy) (normalizedWinner videoSad)
        (normalizedWinner audioSad) :=
  fuse_dominant_among_winners textHappy videoSad audioSad

/-- Witness for C10 at a concrete collaborator. -/
theorem respond_sad_and_delegate_witness :
    process_message id "Sad" =
      "I\x27m here for you. Would you like some calming music recommendations, a motivational story, or a virtual hug?" ∧
    process_message id "xyzzy" = id "xyzzy" :=
  respond_sad_and_delegate id
